import Mathlib

/-!
Shallow embedding of the grxiv image viewer (src/grxiv.cpp and its variant
src/unnamed/part_000): the navigation/zoom state machine of ImageGLWidget,
the directory image-source resolver, the texture lifecycle of updateTexture,
and the viewport transform of paintGL.  Machine floats are modelled by exact
rationals; the Qt image decoder and GPU are modelled as oracles whose
responses are carried on the input events.
-/

namespace Grxiv

/-- A decoded QImage: width and height in pixels.  A null QImage (default
constructed, or invalidated by a failed `QImage::load`) has both dimensions 0. -/
structure Bitmap where
  width : Nat
  height : Nat
deriving DecidableEq

/-- `QImage::isNull`: true iff the image has no pixels. -/
def Bitmap.isNull (b : Bitmap) : Bool := b.width == 0 || b.height == 0

/-- The null QImage: `QImage::load` resets the image to this on failure. -/
def Bitmap.nullImage : Bitmap := ⟨0, 0⟩

/-- A successfully created QOpenGLTexture (updateTexture deletes any
texture object whose creation failed, so only created ones are ever stored). -/
structure Texture where
  texWidth : Nat
  texHeight : Nat
deriving DecidableEq

/-- The state of ImageGLWidget: its member fields plus a flag recording that
QApplication::quit() (or window close) has been requested. -/
structure GState where
  imageFiles : List String
  image : Bitmap
  texture : Option Texture
  zoomLevel : ℚ
  currentImageIndex : Int
  quitRequested : Bool
  shaderLinked : Bool
  windowTitle : String
deriving DecidableEq

/-- `qMax(0.1f, qMin(zoomLevel, 10.0f))` from wheelEvent, over exact rationals. -/
def qclamp (z : ℚ) : ℚ := max (1/10) (min z 10)

/-- `ImageGLWidget::updateTexture`: destroy and delete any existing texture,
then, if the current image is not null, attempt to create a texture from it;
on creation failure the fresh object is deleted and the member stays null.
`createOk` is the GPU oracle for whether `QOpenGLTexture(image)` ends created. -/
def updateTexture (createOk : Bool) (s : GState) : GState :=
  if !s.image.isNull then
    if createOk then { s with texture := some ⟨s.image.width, s.image.height⟩ }
    else { s with texture := none }
  else { s with texture := none }

/-- The window title set by `loadImage`: `"%1 (%2/%3)"` with the file name,
1-based position and total count. -/
def titleFor (files : List String) (index : Nat) : String :=
  files.getD index "" ++ " (" ++ toString (index + 1) ++ "/" ++ toString files.length ++ ")"

/-- `ImageGLWidget::loadImage(int index)`.  `outcome` is the decoder oracle:
`none` means `image.load` returned false (which invalidates the member image),
`some b` means it loaded `b`.  In src/grxiv.cpp both failure paths call
QApplication::quit(); the part_000 variant pops a dialog instead of quitting,
but moves the index and invalidates the image identically. -/
def loadImage (index : Int) (outcome : Option Bitmap) (createOk : Bool) (s : GState) : GState :=
  if index < 0 ∨ (s.imageFiles.length : Int) ≤ index then s
  else
    match outcome with
    | none =>
      { s with
        currentImageIndex := index
        windowTitle := titleFor s.imageFiles index.toNat
        image := Bitmap.nullImage
        quitRequested := true }
    | some b =>
      if b.isNull then
        { s with
          currentImageIndex := index
          windowTitle := titleFor s.imageFiles index.toNat
          image := b
          quitRequested := true }
      else
        updateTexture createOk
          { s with
            currentImageIndex := index
            windowTitle := titleFor s.imageFiles index.toNat
            image := b
            zoomLevel := 1 }

/-- An input event, carrying the environment oracles its handler consumes:
wheel rotation, Right/Left key (with decoder and GPU responses for the load
they may trigger), and the Q key. -/
inductive Ev
  | wheel (deltaY : Int)
  | keyRight (outcome : Option Bitmap) (createOk : Bool)
  | keyLeft (outcome : Option Bitmap) (createOk : Bool)
  | keyQ
deriving DecidableEq

/-- One input event: `wheelEvent` (zoom by 1.1 or 0.9, then clamp) and
`keyPressEvent` (Q closes the window; Left/Right call loadPreviousImage /
loadNextImage, whose bound checks guard the loadImage call). -/
def step (s : GState) : Ev → GState
  | .wheel deltaY =>
    let delta : ℚ := if 0 < deltaY then 11/10 else 9/10
    { s with zoomLevel := qclamp (s.zoomLevel * delta) }
  | .keyRight outcome createOk =>
    if s.currentImageIndex + 1 < (s.imageFiles.length : Int) then
      loadImage (s.currentImageIndex + 1) outcome createOk s
    else s
  | .keyLeft outcome createOk =>
    if 0 ≤ s.currentImageIndex - 1 then
      loadImage (s.currentImageIndex - 1) outcome createOk s
    else s
  | .keyQ => { s with quitRequested := true }

/-- The ImageGLWidget constructor state, given the resolved image file list:
zoom 1.0, index −1, no image, no texture; an empty list makes the constructor
call QApplication::quit() and return. -/
def initWidget (files : List String) : GState :=
  { imageFiles := files
    image := Bitmap.nullImage
    texture := none
    zoomLevel := 1
    currentImageIndex := -1
    quitRequested := files.isEmpty
    shaderLinked := false
    windowTitle := "" }

/-- `ImageGLWidget::initializeGL`: `setupOk` is the oracle for context, shader
compilation/linking and buffer creation all succeeding (any failure returns
early, leaving no linked shader); on success, if the file list is nonempty the
first image is loaded via `loadImage(0)`. -/
def initGL (setupOk : Bool) (outcome : Option Bitmap) (createOk : Bool) (s : GState) : GState :=
  if !setupOk then s
  else if !s.imageFiles.isEmpty then
    loadImage 0 outcome createOk { s with shaderLinked := true }
  else { s with shaderLinked := true }

/-- One directory entry as seen by the constructor through QDir: a file name
and whether the entry is a regular file (the `QDir::Files | NoDotAndDotDot`
filter keeps only regular files). -/
structure DirEntry where
  name : String
  isFile : Bool
deriving DecidableEq

/-- The name filters installed by the constructor:
`"*.jpg" << "*.jpeg" << "*.png" << "*.bmp" << "*.gif"`. -/
def nameFilters : List String := ["*.jpg", "*.jpeg", "*.png", "*.bmp", "*.gif"]

/-- ASCII lower-casing of one character, as QDir case-insensitive matching
applies it to the filter patterns and entry names. -/
def lowerChar (c : Char) : Char :=
  if 'A' ≤ c ∧ c ≤ 'Z' then Char.ofNat (c.toNat + 32) else c

/-- The character sequence of a string, lower-cased. -/
def lowerStr (s : String) : List Char := s.data.map lowerChar

/-- Whether the character list `n` ends with the suffix `suf`. -/
def endsWithChars (suf n : List Char) : Bool :=
  decide (suf.reverse <+: n.reverse)

/-- QDir wildcard matching of one `*.ext` pattern against a file name: the
name matches iff it ends with `.ext`, compared case-insensitively — QDir name
filtering is case-insensitive unless `QDir::CaseSensitive` is set (the source
does not set it). -/
def matchesFilter (pat : String) (n : String) : Bool :=
  endsWithChars (lowerStr (pat.drop 1)) (lowerStr n)

/-- Whether a file name passes any of the installed name filters. -/
def matchesFilters (n : String) : Bool := nameFilters.any fun p => matchesFilter p n

/-- `dir.entryInfoList()` under the filters and `QDir::Name` sorting set by the
constructor: keep the regular files whose names match a filter, then sort the
names ascending. -/
def dirEntryInfoList (entries : List DirEntry) : List String :=
  ((entries.filter fun e => e.isFile && matchesFilters e.name).map DirEntry.name).mergeSort
    fun a b => decide (a ≤ b)

/-- What main observes for a directory path: the exit code returned by
`app.exec()` and whether `viewer.show()` ran. -/
structure MainResult where
  exitCode : Nat
  windowShown : Bool
deriving DecidableEq

/-- `QApplication::quit()` is `QCoreApplication::exit(0)`: it makes the event
loop return 0 (and, issued before `app.exec()` starts, it is discarded). -/
def quitExitCode : Nat := 0

/-- `main` invoked with a directory path: `ImageViewer viewer(args[0])` runs the
ImageGLWidget constructor (which resolves the directory and, on an empty
result, calls QApplication::quit() and returns), then unconditionally
`viewer.show(); return app.exec();`.  Either way exec returns 0: a quit
requests exit code 0, and a normal window close also yields 0. -/
def mainWithDirPath (entries : List DirEntry) : MainResult :=
  let s := initWidget (dirEntryInfoList entries)
  { exitCode := if s.quitRequested then quitExitCode else 0
    windowShown := true }

/-- The aspect-fitting scales computed by `paintGL`: `scaleX`/`scaleY` start at
1.0; if imageAspect > windowAspect then scaleY becomes windowAspect/imageAspect,
else scaleX becomes imageAspect/windowAspect. -/
def fitScale (imgW imgH winW winH : Nat) : ℚ × ℚ :=
  let imageAspect : ℚ := (imgW : ℚ) / (imgH : ℚ)
  let windowAspect : ℚ := (winW : ℚ) / (winH : ℚ)
  if windowAspect < imageAspect then (1, windowAspect / imageAspect)
  else (imageAspect / windowAspect, 1)

/-- `QMatrix4x4 mvp; mvp.scale(sx*zoom, sy*zoom, 1.0f)`: the identity
post-multiplied by the axis scale, i.e. a diagonal matrix with no rotation or
translation component. -/
def mvpMatrix (sx sy zoom : ℚ) : Matrix (Fin 4) (Fin 4) ℚ :=
  (1 : Matrix (Fin 4) (Fin 4) ℚ) * Matrix.diagonal ![sx * zoom, sy * zoom, 1, 1]

/-- The draw call `paintGL` issues when it draws: the mvp uniform it uploads. -/
structure DrawCall where
  mvp : Matrix (Fin 4) (Fin 4) ℚ

/-- `ImageGLWidget::paintGL` on a window of size winW×winH: after the clear,
if there is no created texture or no linked shader it returns without drawing;
otherwise it computes the aspect scales from the member image and the widget
size and draws the quad with the scaled mvp. -/
def paintGL (winW winH : Nat) (s : GState) : Option DrawCall :=
  match s.texture with
  | none => none
  | some _ =>
    if !s.shaderLinked then none
    else
      let sc := fitScale s.image.width s.image.height winW winH
      some ⟨mvpMatrix sc.1 sc.2 s.zoomLevel⟩

/-- The GPU-visible operations `updateTexture` performs on texture objects, in
order: destroying the old created texture, an allocation attempt (live iff it
ends created), and the deletion of a failed allocation. -/
inductive TexOp
  | destroyOld
  | allocAttempt (ok : Bool)
  | deleteFailed
deriving DecidableEq

/-- The operation sequence of one `updateTexture` call, read off its body:
destroy/delete the existing texture first (only if one exists), then, if the
image is not null, construct a QOpenGLTexture — deleting it again at once when
it did not end up created. -/
def updateTextureOps (hadTex : Bool) (imgNull : Bool) (createOk : Bool) : List TexOp :=
  (if hadTex then [TexOp.destroyOld] else []) ++
    (if !imgNull then
      if createOk then [TexOp.allocAttempt true]
      else [TexOp.allocAttempt false, TexOp.deleteFailed]
    else [])

/-- How one texture operation changes the number of live (created) textures. -/
def liveAfter (n : Nat) : TexOp → Nat
  | .destroyOld => n - 1
  | .allocAttempt ok => if ok then n + 1 else n
  | .deleteFailed => n

/-- The number of live textures after each prefix of an operation sequence,
starting from `start` live textures. -/
def liveTrace (start : Nat) (ops : List TexOp) : List Nat :=
  ops.scanl liveAfter start

/-- Whether every allocation attempt in an operation sequence happens at a
moment with zero live textures, i.e. the old texture was destroyed first
(`liveTrace start ops` pairs each operation with the live count just before it). -/
def destroyBeforeAlloc (start : Nat) (ops : List TexOp) : Bool :=
  (ops.zip (liveTrace start ops)).all fun p =>
    match p.1 with
    | TexOp.allocAttempt _ => p.2 == 0
    | _ => true

/-- Whether a decoder response is a successful load of a non-null image. -/
def loadOk : Option Bitmap → Bool
  | some b => !b.isNull
  | none => false

/-- Whether an event carries only successful decoder responses. -/
def goodEv : Ev → Bool
  | .keyRight o _ => loadOk o
  | .keyLeft o _ => loadOk o
  | _ => true

/-- States reachable from a freshly constructed widget after initGL, under any
sequence of events with any oracle responses. -/
inductive ReachableAny : GState → Prop
  | init (files : List String) (setupOk : Bool) (o : Option Bitmap) (c : Bool) :
      ReachableAny (initGL setupOk o c (initWidget files))
  | next (s : GState) (e : Ev) : ReachableAny s → ReachableAny (step s e)

/-- States reachable when the first load and every navigation load succeed
(no load failure ever occurs); texture creation may still fail. -/
inductive ReachableGood : GState → Prop
  | init (files : List String) (setupOk : Bool) (o : Option Bitmap) (c : Bool) :
      loadOk o = true → ReachableGood (initGL setupOk o c (initWidget files))
  | next (s : GState) (e : Ev) : ReachableGood s → goodEv e = true → ReachableGood (step s e)

lemma tenth_le_qclamp (z : ℚ) : 1/10 ≤ qclamp z := le_max_left _ _

lemma qclamp_le_ten (z : ℚ) : qclamp z ≤ 10 :=
  max_le (by norm_num) (min_le_right z 10)

lemma qclamp_eq_self {z : ℚ} (h1 : 1/10 ≤ z) (h2 : z ≤ 10) : qclamp z = z := by
  unfold qclamp
  rw [min_eq_left h2, max_eq_right h1]

lemma qclamp_idem (z : ℚ) : qclamp (qclamp z) = qclamp z :=
  qclamp_eq_self (tenth_le_qclamp z) (qclamp_le_ten z)

lemma step_wheel_eq (s : GState) (d : Int) :
    step s (.wheel d) =
      { s with zoomLevel := qclamp (s.zoomLevel * (if 0 < d then 11/10 else 9/10)) } := rfl

/-- Claim C2: over any sequence of wheel events from a zoom in [0.1, 10.0],
the zoom after every event stays in [0.1, 10.0], the clamp is idempotent, and
the clamp fixes both boundary values. -/
theorem c2_zoom_stays_bounded (s : GState) (ds : List Int)
    (h1 : 1/10 ≤ s.zoomLevel) (h2 : s.zoomLevel ≤ 10) :
    (∀ t ∈ ds.scanl (fun u d => step u (Ev.wheel d)) s,
        1/10 ≤ t.zoomLevel ∧ t.zoomLevel ≤ 10)
    ∧ (∀ z : ℚ, qclamp (qclamp z) = qclamp z)
    ∧ qclamp (1/10) = 1/10 ∧ qclamp 10 = 10 := by
  refine ⟨?_, fun z => qclamp_idem z,
    qclamp_eq_self le_rfl (by norm_num), qclamp_eq_self (by norm_num) le_rfl⟩
  induction ds generalizing s with
  | nil =>
    intro t ht
    simp only [List.scanl_nil, List.mem_singleton] at ht
    exact ht ▸ ⟨h1, h2⟩
  | cons d ds ih =>
    intro t ht
    rw [List.scanl_cons] at ht
    rcases List.mem_append.1 ht with hh | htl
    · simp only [List.mem_singleton] at hh
      exact hh ▸ ⟨h1, h2⟩
    · exact ih (step s (Ev.wheel d))
        (by rw [step_wheel_eq]; exact tenth_le_qclamp _)
        (by rw [step_wheel_eq]; exact qclamp_le_ten _) t htl

/-- Witness for C2 at a concrete state (zoom 1) and a concrete event list. -/
theorem c2_zoom_stays_bounded_witness :
    1/10 ≤ (step (initWidget ["a.png"]) (Ev.wheel (-120))).zoomLevel
    ∧ (step (initWidget ["a.png"]) (Ev.wheel (-120))).zoomLevel ≤ 10 :=
  (c2_zoom_stays_bounded (initWidget ["a.png"]) [(-120 : Int)]
      (by norm_num [initWidget]) (by norm_num [initWidget])).1
    (step (initWidget ["a.png"]) (Ev.wheel (-120)))
    (by simp [List.scanl_cons, List.scanl_nil])

/-- Claim C3 counterexample: from zoom 1.0, a ZoomOut wheel event produces
zoom 0.9 (the code multiplies by 0.9f), while the claimed clamp(z / 1.1)
would be 10/11; these differ. -/
theorem c3_zoomout_counterexample :
    (step (initWidget ["p.png"]) (Ev.wheel (-120))).zoomLevel = 9/10
    ∧ qclamp ((initWidget ["p.png"]).zoomLevel / (11/10)) = 10/11
    ∧ (9/10 : ℚ) ≠ 10/11 := by
  refine ⟨?_, ?_, by norm_num⟩
  · rw [step_wheel_eq]
    norm_num [initWidget, qclamp]
  · norm_num [initWidget, qclamp]

/-- Claim C3 as amended: a ZoomIn wheel event sets zoom to
clamp(z · 1.1, 0.1, 10.0) and a ZoomOut event to clamp(z · 0.9, 0.1, 10.0)
(multiplication by 0.9, not division by 1.1); no other field of the state
changes — in particular no reload and no index change. -/
theorem c3_zoom_step_amended (s : GState) (d : Int) :
    (0 < d → step s (.wheel d) = { s with zoomLevel := qclamp (s.zoomLevel * (11/10)) })
    ∧ (d ≤ 0 → step s (.wheel d) = { s with zoomLevel := qclamp (s.zoomLevel * (9/10)) }) := by
  constructor
  · intro h
    rw [step_wheel_eq, if_pos h]
  · intro h
    rw [step_wheel_eq, if_neg (not_lt.2 h)]

/-- Witness for the amended C3 at concrete wheel deltas. -/
theorem c3_zoom_step_amended_witness :
    step (initWidget ["p.png"]) (.wheel 120) =
      { initWidget ["p.png"] with zoomLevel := qclamp ((initWidget ["p.png"]).zoomLevel * (11/10)) }
    ∧ step (initWidget ["p.png"]) (.wheel (-120)) =
      { initWidget ["p.png"] with zoomLevel := qclamp ((initWidget ["p.png"]).zoomLevel * (9/10)) } :=
  ⟨(c3_zoom_step_amended (initWidget ["p.png"]) 120).1 (by norm_num),
   (c3_zoom_step_amended (initWidget ["p.png"]) (-120)).2 (by norm_num)⟩

lemma mvpMatrix_eq_diagonal (sx sy z : ℚ) :
    mvpMatrix sx sy z = Matrix.diagonal ![sx * z, sy * z, 1, 1] := one_mul _

/-- Claim C4: for positive image and window dimensions, paintGL's transform
scales by (windowAspect/imageAspect) on Y when the image is proportionally
wider than the window and by (imageAspect/windowAspect) on X otherwise, the
other factor staying 1; the mvp is the diagonal scale-by-zoom matrix with no
rotation or translation; and the two numeric examples of the spec hold
(600×800 in 800×600 gives scaleX = 9/16 = 0.5625, 1920×1080 in 800×600 gives
scaleY = 3/4 = 0.75). -/
theorem c4_viewport_transform (w h winW winH : Nat)
    (_hw : 0 < w) (_hh : 0 < h) (_hW : 0 < winW) (_hH : 0 < winH) :
    (((winW : ℚ) / winH < (w : ℚ) / h →
        fitScale w h winW winH = (1, ((winW : ℚ) / winH) / ((w : ℚ) / h)))
      ∧ (¬((winW : ℚ) / winH < (w : ℚ) / h) →
        fitScale w h winW winH = (((w : ℚ) / h) / ((winW : ℚ) / winH), 1)))
    ∧ (∀ sx sy z : ℚ, mvpMatrix sx sy z = Matrix.diagonal ![sx * z, sy * z, 1, 1])
    ∧ (∀ (sx sy z : ℚ) (i j : Fin 4), i ≠ j → mvpMatrix sx sy z i j = 0)
    ∧ (∀ sx sy z : ℚ,
        mvpMatrix sx sy z 0 0 = sx * z ∧ mvpMatrix sx sy z 1 1 = sy * z
        ∧ mvpMatrix sx sy z 2 2 = 1 ∧ mvpMatrix sx sy z 3 3 = 1)
    ∧ fitScale 600 800 800 600 = (9/16, 1)
    ∧ fitScale 1920 1080 800 600 = (1, 3/4) := by
  refine ⟨⟨?_, ?_⟩, mvpMatrix_eq_diagonal, ?_, ?_, ?_, ?_⟩
  · intro hlt
    simp only [fitScale]
    rw [if_pos hlt]
  · intro hge
    simp only [fitScale]
    rw [if_neg hge]
  · intro sx sy z i j hij
    rw [mvpMatrix_eq_diagonal]
    exact Matrix.diagonal_apply_ne _ hij
  · intro sx sy z
    rw [mvpMatrix_eq_diagonal]
    refine ⟨?_, ?_, ?_, ?_⟩ <;> simp [Matrix.diagonal_apply_eq]
  · have hc : ¬((800 : ℚ) / 600 < (600 : ℚ) / 800) := by norm_num
    simp only [fitScale]
    norm_num
  · have hc : ((800 : ℚ) / 600 < (1920 : ℚ) / 1080) := by norm_num
    simp only [fitScale]
    norm_num

/-- Witness for C4 at the spec's 600×800 image in an 800×600 window. -/
theorem c4_viewport_transform_witness :
    fitScale 600 800 800 600 = (9/16, 1) ∧ fitScale 1920 1080 800 600 = (1, 3/4) :=
  ⟨(c4_viewport_transform 600 800 800 600 (by norm_num) (by norm_num)
      (by norm_num) (by norm_num)).2.2.2.2.1,
   (c4_viewport_transform 1920 1080 800 600 (by norm_num) (by norm_num)
      (by norm_num) (by norm_num)).2.2.2.2.2⟩

lemma updateTexture_imageFiles (c : Bool) (s : GState) :
    (updateTexture c s).imageFiles = s.imageFiles := by
  unfold updateTexture
  split <;> (try split) <;> rfl

lemma updateTexture_image (c : Bool) (s : GState) :
    (updateTexture c s).image = s.image := by
  unfold updateTexture
  split <;> (try split) <;> rfl

lemma updateTexture_zoomLevel (c : Bool) (s : GState) :
    (updateTexture c s).zoomLevel = s.zoomLevel := by
  unfold updateTexture
  split <;> (try split) <;> rfl

lemma updateTexture_currentImageIndex (c : Bool) (s : GState) :
    (updateTexture c s).currentImageIndex = s.currentImageIndex := by
  unfold updateTexture
  split <;> (try split) <;> rfl

lemma updateTexture_quitRequested (c : Bool) (s : GState) :
    (updateTexture c s).quitRequested = s.quitRequested := by
  unfold updateTexture
  split <;> (try split) <;> rfl

lemma updateTexture_false_texture (s : GState) :
    (updateTexture false s).texture = none := by
  unfold updateTexture
  split <;> rfl

lemma updateTexture_isSome_image (c : Bool) (s : GState)
    (h : ((updateTexture c s).texture).isSome = true) : s.image.isNull = false := by
  unfold updateTexture at h
  by_cases hn : s.image.isNull = true
  · rw [if_neg (by simp [hn])] at h
    simp at h
  · simpa using hn

lemma loadImage_success_eq (i : Int) (b : Bitmap) (c : Bool) (s : GState)
    (hi : ¬(i < 0 ∨ (s.imageFiles.length : Int) ≤ i)) (hb : b.isNull = false) :
    loadImage i (some b) c s =
      updateTexture c
        { s with
          currentImageIndex := i
          windowTitle := titleFor s.imageFiles i.toNat
          image := b
          zoomLevel := 1 } := by
  unfold loadImage
  rw [if_neg hi]
  simp only [hb, Bool.false_eq_true, if_false]

lemma loadImage_imageFiles (i : Int) (o : Option Bitmap) (c : Bool) (s : GState) :
    (loadImage i o c s).imageFiles = s.imageFiles := by
  unfold loadImage
  split
  · rfl
  · cases o with
    | none => rfl
    | some b =>
      dsimp only
      split
      · rfl
      · exact updateTexture_imageFiles c _

lemma loadImage_quit_of_fail (i : Int) (c : Bool) (s : GState)
    (hi : ¬(i < 0 ∨ (s.imageFiles.length : Int) ≤ i)) :
    loadImage i none c s =
      { s with
        currentImageIndex := i
        windowTitle := titleFor s.imageFiles i.toNat
        image := Bitmap.nullImage
        quitRequested := true } := by
  unfold loadImage
  rw [if_neg hi]

lemma loadImage_zoom_one (i : Int) (b : Bitmap) (c : Bool) (s : GState)
    (h0 : 0 ≤ i) (h1 : i < (s.imageFiles.length : Int)) (hb : b.isNull = false) :
    (loadImage i (some b) c s).zoomLevel = 1 := by
  rw [loadImage_success_eq i b c s (by omega) hb]
  rw [updateTexture_zoomLevel]

/-- Claim C5: with the image set of length n, an Advance when index+1 ≥ n and
a Retreat when index = 0 leave the entire state unchanged (index, image,
texture, zoom, title, everything) — no wraparound. -/
theorem c5_advance_retreat_noop (s : GState) (o : Option Bitmap) (c : Bool) :
    ((s.imageFiles.length : Int) ≤ s.currentImageIndex + 1 → step s (.keyRight o c) = s)
    ∧ (s.currentImageIndex = 0 → step s (.keyLeft o c) = s) := by
  constructor
  · intro hle
    simp only [step]
    rw [if_neg (not_lt.2 hle)]
  · intro h0
    simp only [step]
    rw [if_neg (by omega)]

/-- Witness for C5: a one-image set showing index 0; both Advance and Retreat
are no-ops there. -/
theorem c5_advance_retreat_noop_witness :
    (((initGL true (some ⟨4, 3⟩) true (initWidget ["a.png"])).imageFiles.length : Int) ≤
        (initGL true (some ⟨4, 3⟩) true (initWidget ["a.png"])).currentImageIndex + 1
      ∧ step (initGL true (some ⟨4, 3⟩) true (initWidget ["a.png"])) (.keyRight none true) =
        initGL true (some ⟨4, 3⟩) true (initWidget ["a.png"]))
    ∧ ((initGL true (some ⟨4, 3⟩) true (initWidget ["a.png"])).currentImageIndex = 0
      ∧ step (initGL true (some ⟨4, 3⟩) true (initWidget ["a.png"])) (.keyLeft none true) =
        initGL true (some ⟨4, 3⟩) true (initWidget ["a.png"])) :=
  ⟨⟨by decide,
    (c5_advance_retreat_noop (initGL true (some ⟨4, 3⟩) true (initWidget ["a.png"])) none true).1
      (by decide)⟩,
   ⟨by decide,
    (c5_advance_retreat_noop (initGL true (some ⟨4, 3⟩) true (initWidget ["a.png"])) none true).2
      (by decide)⟩⟩

/-- Claim C9: every successful load of a non-null image — direct loadImage,
the initial load of initGL, an in-range Advance, an in-range Retreat — leaves
the zoom factor at exactly 1, whatever it was before. -/
theorem c9_zoom_reset_on_load (s : GState) (fs : List String) (i : Int) (b : Bitmap) (c : Bool) :
    (0 ≤ i → i < (s.imageFiles.length : Int) → b.isNull = false →
      (loadImage i (some b) c s).zoomLevel = 1)
    ∧ (fs ≠ [] → b.isNull = false →
      (initGL true (some b) c (initWidget fs)).zoomLevel = 1)
    ∧ (0 ≤ s.currentImageIndex → s.currentImageIndex + 1 < (s.imageFiles.length : Int) →
        b.isNull = false → (step s (.keyRight (some b) c)).zoomLevel = 1)
    ∧ (1 ≤ s.currentImageIndex → s.currentImageIndex ≤ (s.imageFiles.length : Int) →
        b.isNull = false → (step s (.keyLeft (some b) c)).zoomLevel = 1) := by
  refine ⟨fun h0 h1 hb => loadImage_zoom_one i b c s h0 h1 hb, ?_, ?_, ?_⟩
  · intro hfs hb
    unfold initGL
    rw [if_neg (by simp)]
    rw [if_pos (by simp [initWidget, hfs])]
    apply loadImage_zoom_one
    · omega
    · show (0 : Int) < (fs.length : Int)
      exact_mod_cast List.length_pos.2 hfs
    · exact hb
  · intro hix h1 hb
    simp only [step]
    rw [if_pos h1]
    exact loadImage_zoom_one _ b c s (by omega) (by omega) hb
  · intro hix h1 hb
    simp only [step]
    rw [if_pos (by omega)]
    exact loadImage_zoom_one _ b c s (by omega) (by omega) hb

/-- Witness for C9 at concrete states: index 0 of a two-image set for the
direct load, initial load and Advance cases, and index 1 for the Retreat case. -/
theorem c9_zoom_reset_on_load_witness :
    (loadImage 0 (some ⟨8, 6⟩) true
        (initGL true (some ⟨8, 6⟩) true (initWidget ["a.jpg", "b.jpg"]))).zoomLevel = 1
    ∧ (initGL true (some ⟨8, 6⟩) true (initWidget ["a.jpg", "b.jpg"])).zoomLevel = 1
    ∧ (step (initGL true (some ⟨8, 6⟩) true (initWidget ["a.jpg", "b.jpg"]))
        (.keyRight (some ⟨8, 6⟩) true)).zoomLevel = 1
    ∧ (step (step (initGL true (some ⟨8, 6⟩) true (initWidget ["a.jpg", "b.jpg"]))
          (.keyRight (some ⟨5, 5⟩) true))
        (.keyLeft (some ⟨8, 6⟩) true)).zoomLevel = 1 :=
  ⟨(c9_zoom_reset_on_load (initGL true (some ⟨8, 6⟩) true (initWidget ["a.jpg", "b.jpg"]))
      ["a.jpg", "b.jpg"] 0 ⟨8, 6⟩ true).1 (by decide) (by decide) (by decide),
   (c9_zoom_reset_on_load (initWidget []) ["a.jpg", "b.jpg"] 0 ⟨8, 6⟩ true).2.1
      (by decide) (by decide),
   (c9_zoom_reset_on_load (initGL true (some ⟨8, 6⟩) true (initWidget ["a.jpg", "b.jpg"]))
      ["a.jpg", "b.jpg"] 0 ⟨8, 6⟩ true).2.2.1 (by decide) (by decide) (by decide),
   (c9_zoom_reset_on_load (step (initGL true (some ⟨8, 6⟩) true (initWidget ["a.jpg", "b.jpg"]))
        (.keyRight (some ⟨5, 5⟩) true)) ["a.jpg", "b.jpg"] 0 ⟨8, 6⟩ true).2.2.2
      (by decide) (by decide) (by decide)⟩

lemma step_imageFiles (s : GState) (e : Ev) : (step s e).imageFiles = s.imageFiles := by
  cases e with
  | wheel d => rfl
  | keyQ => rfl
  | keyRight o c =>
    simp only [step]
    split
    · exact loadImage_imageFiles _ _ _ _
    · rfl
  | keyLeft o c =>
    simp only [step]
    split
    · exact loadImage_imageFiles _ _ _ _
    · rfl

/-- Claim C6: the resolved image list of a directory is a permutation of
exactly its regular-file entries whose names pass the extension filters
(case-insensitive), it is sorted ascending by filename, membership is exactly
filter-passing, and no event ever changes the list afterwards. -/
theorem c6_directory_resolution (entries : List DirEntry) :
    List.Perm (dirEntryInfoList entries)
      ((entries.filter fun e => e.isFile && matchesFilters e.name).map DirEntry.name)
    ∧ List.Sorted (fun a b : String => a ≤ b) (dirEntryInfoList entries)
    ∧ (∀ x : String, x ∈ dirEntryInfoList entries ↔
        ∃ e ∈ entries, e.isFile = true ∧ matchesFilters e.name = true ∧ e.name = x)
    ∧ (∀ (s : GState) (e : Ev), (step s e).imageFiles = s.imageFiles) := by
  refine ⟨List.mergeSort_perm _ _, List.sorted_mergeSort' _, ?_, step_imageFiles⟩
  intro x
  unfold dirEntryInfoList
  rw [(List.mergeSort_perm _ _).mem_iff, List.mem_map]
  constructor
  · rintro ⟨e, heMem, rfl⟩
    rw [List.mem_filter] at heMem
    rcases heMem with ⟨he, hcond⟩
    simp only [Bool.and_eq_true] at hcond
    exact ⟨e, he, hcond.1, hcond.2, rfl⟩
  · rintro ⟨e, he, h1, h2, rfl⟩
    exact ⟨e, List.mem_filter.2 ⟨he, by simp [h1, h2]⟩, rfl⟩

lemma dirEntryInfoList_nil : dirEntryInfoList [] = [] := by
  unfold dirEntryInfoList
  simp [List.mergeSort_nil]

lemma dirEntryInfoList_txt : dirEntryInfoList [⟨"c.txt", true⟩] = [] := by
  unfold dirEntryInfoList
  have h : matchesFilters "c.txt" = false := by decide
  simp [h, List.mergeSort_nil]

/-- Claim C7 code behavior: on an empty directory (and on one whose entries
all have unrecognized extensions) the constructor requests
QApplication::quit(), but main still shows the window unconditionally and
app.exec() yields exit code 0 — not a non-zero exit before any window. -/
theorem c7_empty_directory_behavior :
    mainWithDirPath [] = ⟨0, true⟩
    ∧ (initWidget (dirEntryInfoList [])).quitRequested = true
    ∧ dirEntryInfoList [⟨"c.txt", true⟩] = []
    ∧ mainWithDirPath [⟨"c.txt", true⟩] = ⟨0, true⟩
    ∧ quitExitCode = 0 := by
  refine ⟨?_, ?_, dirEntryInfoList_txt, ?_, rfl⟩
  · unfold mainWithDirPath
    rw [dirEntryInfoList_nil]
    rfl
  · rw [dirEntryInfoList_nil]
    rfl
  · unfold mainWithDirPath
    rw [dirEntryInfoList_txt]
    rfl

/-- Claim C8: during updateTexture at most one live texture exists at every
intermediate point, every allocation happens only after the prior texture was
destroyed (live count 0 at the attempt), the destroy is the first operation
whenever a prior texture existed, after a creation failure the widget holds no
texture handle, and paintGL with no texture draws nothing. -/
theorem c8_texture_lifecycle :
    (∀ hadTex imgNull createOk : Bool,
        (∀ n ∈ liveTrace (if hadTex then 1 else 0) (updateTextureOps hadTex imgNull createOk),
          n ≤ 1)
        ∧ destroyBeforeAlloc (if hadTex then 1 else 0)
            (updateTextureOps hadTex imgNull createOk) = true
        ∧ (hadTex = true →
            (updateTextureOps hadTex imgNull createOk).head? = some TexOp.destroyOld))
    ∧ (∀ s : GState, (updateTexture false s).texture = none)
    ∧ (∀ (winW winH : Nat) (s : GState), s.texture = none → paintGL winW winH s = none) := by
  refine ⟨?_, updateTexture_false_texture, ?_⟩
  · intro hadTex imgNull createOk
    cases hadTex <;> cases imgNull <;> cases createOk <;>
      exact ⟨by decide, by decide, by decide⟩
  · intro winW winH s h
    unfold paintGL
    rw [h]

/-- Witness for C8 at a concrete operation sequence (prior texture present,
image non-null, creation failing) and a concrete textureless state. -/
theorem c8_texture_lifecycle_witness :
    (1 : Nat) ≤ 1
    ∧ destroyBeforeAlloc 1 (updateTextureOps true false false) = true
    ∧ (updateTextureOps true false false).head? = some TexOp.destroyOld
    ∧ (updateTexture false (initWidget ["w.png"])).texture = none
    ∧ paintGL 800 600 (initWidget ["w.png"]) = none :=
  ⟨(c8_texture_lifecycle.1 true false false).1 1 (by decide),
   (c8_texture_lifecycle.1 true false false).2.1,
   (c8_texture_lifecycle.1 true false false).2.2 rfl,
   c8_texture_lifecycle.2.1 (initWidget ["w.png"]),
   c8_texture_lifecycle.2.2 800 600 (initWidget ["w.png"]) rfl⟩

/-- Claim C1 code behavior at a failing Advance: from a two-image set showing
index 0, an Advance whose load fails leaves the texture in place but moves
currentImageIndex to 1, invalidates the member image and requests application
quit — the session terminates and the index is not preserved. -/
theorem c1_nav_load_failure_divergence :
    (initGL true (some ⟨100, 80⟩) true (initWidget ["a.png", "b.png"])).currentImageIndex = 0
    ∧ (initGL true (some ⟨100, 80⟩) true (initWidget ["a.png", "b.png"])).quitRequested = false
    ∧ (step (initGL true (some ⟨100, 80⟩) true (initWidget ["a.png", "b.png"]))
        (Ev.keyRight none true)).quitRequested = true
    ∧ (step (initGL true (some ⟨100, 80⟩) true (initWidget ["a.png", "b.png"]))
        (Ev.keyRight none true)).currentImageIndex = 1
    ∧ (step (initGL true (some ⟨100, 80⟩) true (initWidget ["a.png", "b.png"]))
        (Ev.keyRight none true)).image.isNull = true
    ∧ (step (initGL true (some ⟨100, 80⟩) true (initWidget ["a.png", "b.png"]))
        (Ev.keyRight none true)).texture =
      (initGL true (some ⟨100, 80⟩) true (initWidget ["a.png", "b.png"])).texture :=
  ⟨rfl, rfl, rfl, rfl, rfl, rfl⟩

lemma Bitmap.pos_of_not_null (b : Bitmap) (h : b.isNull = false) :
    0 < b.width ∧ 0 < b.height := by
  unfold Bitmap.isNull at h
  rcases Bool.or_eq_false_iff.1 h with ⟨h1, h2⟩
  exact ⟨Nat.pos_of_ne_zero (by simpa using h1), Nat.pos_of_ne_zero (by simpa using h2)⟩

lemma loadImage_success_image_inv (i : Int) (b : Bitmap) (c : Bool) (s : GState)
    (hb : b.isNull = false)
    (ih : s.texture.isSome = true → s.image.isNull = false) :
    (loadImage i (some b) c s).texture.isSome = true →
      (loadImage i (some b) c s).image.isNull = false := by
  intro h
  by_cases hi : i < 0 ∨ (s.imageFiles.length : Int) ≤ i
  · unfold loadImage at h ⊢
    rw [if_pos hi] at h ⊢
    exact ih h
  · rw [loadImage_success_eq i b c s hi hb]
    rw [updateTexture_image]
    exact hb

lemma reachableGood_texture_image (s : GState) (hs : ReachableGood s) :
    s.texture.isSome = true → s.image.isNull = false := by
  induction hs with
  | init files setupOk o c ho =>
    cases o with
    | none => simp [loadOk] at ho
    | some b =>
      have hb : b.isNull = false := by simpa [loadOk] using ho
      cases setupOk with
      | false =>
        intro h
        simp [initGL, initWidget] at h
      | true =>
        unfold initGL
        rw [if_neg (by simp)]
        by_cases hfe : files.isEmpty
        · rw [if_neg (by simp [initWidget, hfe])]
          intro h
          simp [initWidget] at h
        · rw [if_pos (by simp [initWidget, hfe])]
          exact loadImage_success_image_inv 0 b c _ hb (fun h => by simp [initWidget] at h)
  | next s e hs hg ih =>
    cases e with
    | wheel d => exact ih
    | keyQ => exact ih
    | keyRight o c =>
      simp only [goodEv] at hg
      cases o with
      | none => simp [loadOk] at hg
      | some b =>
        have hb : b.isNull = false := by simpa [loadOk] using hg
        simp only [step]
        split
        · exact loadImage_success_image_inv _ b c s hb ih
        · exact ih
    | keyLeft o c =>
      simp only [goodEv] at hg
      cases o with
      | none => simp [loadOk] at hg
      | some b =>
        have hb : b.isNull = false := by simpa [loadOk] using hg
        simp only [step]
        split
        · exact loadImage_success_image_inv _ b c s hb ih
        · exact ih

/-- Claim C10 as amended: in every state reachable without any load failure,
a present texture implies the current image is non-null with positive width
and height, so paintGL's aspect-ratio division has a positive divisor.  (After
a failed navigation load the original invariant is broken: see the
counterexample.) -/
theorem c10_no_failure_invariant (s : GState) (hs : ReachableGood s)
    (ht : s.texture.isSome = true) :
    s.image.isNull = false ∧ 0 < s.image.width ∧ 0 < s.image.height := by
  have h := reachableGood_texture_image s hs ht
  exact ⟨h, (Bitmap.pos_of_not_null _ h).1, (Bitmap.pos_of_not_null _ h).2⟩

/-- Witness for the amended C10: the state after a successful initial load. -/
theorem c10_no_failure_invariant_witness :
    (initGL true (some ⟨2, 3⟩) true (initWidget ["a.jpg"])).image.isNull = false
    ∧ 0 < (initGL true (some ⟨2, 3⟩) true (initWidget ["a.jpg"])).image.width
    ∧ 0 < (initGL true (some ⟨2, 3⟩) true (initWidget ["a.jpg"])).image.height :=
  c10_no_failure_invariant _
    (ReachableGood.init ["a.jpg"] true (some ⟨2, 3⟩) true (by decide)) (by decide)

/-- Claim C10 counterexample: a reachable state (after a failed Advance load)
in which a created texture exists while the current image is null with height
0 — the claimed invariant, stated to include states after failed navigation
loads, is false there. -/
theorem c10_reachable_counterexample :
    ReachableAny (step (initGL true (some ⟨640, 480⟩) true (initWidget ["x.jpg", "y.jpg"]))
      (Ev.keyRight none true))
    ∧ (step (initGL true (some ⟨640, 480⟩) true (initWidget ["x.jpg", "y.jpg"]))
        (Ev.keyRight none true)).texture.isSome = true
    ∧ (step (initGL true (some ⟨640, 480⟩) true (initWidget ["x.jpg", "y.jpg"]))
        (Ev.keyRight none true)).image.isNull = true
    ∧ (step (initGL true (some ⟨640, 480⟩) true (initWidget ["x.jpg", "y.jpg"]))
        (Ev.keyRight none true)).image.height = 0 :=
  ⟨ReachableAny.next _ (Ev.keyRight none true)
      (ReachableAny.init ["x.jpg", "y.jpg"] true (some ⟨640, 480⟩) true),
   rfl, rfl, rfl⟩

end Grxiv
